import Mathlib

/-!
Verification of the `step-app` client bridges, centred on the stdio JSON-RPC
relay in `step_bridge.py` (class `StepChallengeMCPBridge`) and the startup
behaviour of `mcp_server_anthropic.py`.

The embedding models the Python data values that can flow through the bridge
(everything `json.loads` can produce) as the inductive type `Json`, models
`json.loads` itself as a fuelled recursive-descent parser `jsonParse`, and
translates the bridge's request handling (`make_api_request`,
`handle_tools_call`, `handle_request`, the `run` loop) into pure Lean
functions.  The remote HTTP endpoint is a deterministic parameter
(`Env.remote`), and an uncaught Python exception is an `Except.error`
carrying `str(e)`.
-/

namespace StepApp

/-- Python values decodable from JSON by `json.loads`: `None`, `bool`, `int`,
`float` (kept as its source lexeme, since the bridge never computes with it),
`str`, `list`, `dict` (insertion-ordered association list with unique keys,
as produced by the parser). -/
inductive Json where
  | null : Json
  | bool (b : Bool) : Json
  | num (n : Int) : Json
  | numRaw (lexeme : String) : Json
  | str (s : String) : Json
  | arr (elems : List Json) : Json
  | obj (fields : List (String × Json)) : Json

/-- First-match association lookup; models `dict.get` / `in` on the
parser-produced dicts, whose keys are unique. -/
def jlookup : List (String × Json) → String → Option Json
  | [], _ => none
  | (k2, v) :: rest, k => if k2 = k then some v else jlookup rest k

/-- Insert-or-replace, preserving the position of an existing key: exactly the
effect of `d[k] = v` on a Python dict while `json.loads` accumulates object
members (duplicate keys: last value wins, first position kept). -/
def upsert : List (String × Json) → String → Json → List (String × Json)
  | [], k, v => [(k, v)]
  | (k2, v2) :: rest, k, v =>
    if k2 = k then (k2, v) :: rest else (k2, v2) :: upsert rest k v

/-- The name Python's `type(x).__name__` gives for each decoded JSON value;
used to reproduce `AttributeError` / `TypeError` messages. -/
def pyTypeName : Json → String
  | .null => "NoneType"
  | .bool _ => "bool"
  | .num _ => "int"
  | .numRaw _ => "float"
  | .str _ => "str"
  | .arr _ => "list"
  | .obj _ => "dict"

mutual

/-- Python `str()` of a decoded JSON value (containers render their elements
with `repr`); floats are approximated by their source lexeme. -/
def pyStr : Json → String
  | .null => "None"
  | .bool true => "True"
  | .bool false => "False"
  | .num n => toString n
  | .numRaw s => s
  | .str s => s
  | .arr xs => "[" ++ pyReprJoin xs ++ "]"
  | .obj fs => "\x7b" ++ pyReprFieldsJoin fs ++ "\x7d"

/-- Python `repr()` of a decoded JSON value (strings get single quotes). -/
def pyRepr : Json → String
  | .null => "None"
  | .bool true => "True"
  | .bool false => "False"
  | .num n => toString n
  | .numRaw s => s
  | .str s => "\x27" ++ s ++ "\x27"
  | .arr xs => "[" ++ pyReprJoin xs ++ "]"
  | .obj fs => "\x7b" ++ pyReprFieldsJoin fs ++ "\x7d"

/-- Comma-joined `repr`s of list elements, as in Python's `str(list)`. -/
def pyReprJoin : List Json → String
  | [] => ""
  | [x] => pyRepr x
  | x :: y :: xs => pyRepr x ++ ", " ++ pyReprJoin (y :: xs)

/-- Comma-joined `repr(key): repr(value)` pairs, as in Python's `str(dict)`. -/
def pyReprFieldsJoin : List (String × Json) → String
  | [] => ""
  | [(k, v)] => "\x27" ++ k ++ "\x27: " ++ pyRepr v
  | (k, v) :: p :: xs => "\x27" ++ k ++ "\x27: " ++ pyRepr v ++ ", " ++ pyReprFieldsJoin (p :: xs)

end

/-- Python truthiness of a decoded JSON value (`bool(x)`): `None`, `False`,
`0`, `0.0`, `""`, `[]` and an empty dict are falsy. -/
def floatLexemeIsZero (s : String) : Bool :=
  let mant := s.data.takeWhile (fun c => c != 'e' && c != 'E')
  mant.any (fun c => c.isDigit) && mant.all (fun c => !c.isDigit || c == '0')

/-- `bool(x)` for a decoded JSON value. -/
def pyTruthy : Json → Bool
  | .null => false
  | .bool b => b
  | .num n => !(n == 0)
  | .numRaw s => !(floatLexemeIsZero s)
  | .str s => !s.isEmpty
  | .arr xs => !xs.isEmpty
  | .obj fs => !fs.isEmpty

/-- Python `==` between a decoded JSON value and a string literal: true only
for an equal `str`. -/
def pyEqStr (j : Json) (s : String) : Bool :=
  match j with
  | .str t => t == s
  | _ => false

/-- Substring test, modelling Python's `needle in haystack` for strings. -/
def strContains (hay needle : String) : Bool :=
  hay.data.tails.any (fun t => needle.data.isPrefixOf t)

/-- Python `key in x` for a decoded JSON value: dict key membership, list
element equality, string substring; `TypeError` (as `.error str(e)`) on the
remaining non-iterable values. -/
def pyContains (j : Json) (k : String) : Except String Bool :=
  match j with
  | .obj fields => .ok (jlookup fields k).isSome
  | .arr xs => .ok (xs.any (fun v => pyEqStr v k))
  | .str s => .ok (strContains s k)
  | other => .error ("argument of type \x27" ++ pyTypeName other ++ "\x27 is not iterable")

/-- Python `x[k]` with a string key: dict lookup (`KeyError` when absent),
`TypeError` on anything else; errors carry `str(e)`. -/
def pySubscript (j : Json) (k : String) : Except String Json :=
  match j with
  | .obj fields =>
    match jlookup fields k with
    | some v => .ok v
    | none => .error ("\x27" ++ k ++ "\x27")
  | .str _ => .error "string indices must be integers"
  | .arr _ => .error "list indices must be integers or slices, not str"
  | other => .error ("\x27" ++ pyTypeName other ++ "\x27 object is not subscriptable")

/-- `str(e)` of the `AttributeError` raised by `x.get(...)` on a non-dict. -/
def noGetAttrMsg (j : Json) : String :=
  "\x27" ++ pyTypeName j ++ "\x27 object has no attribute \x27get\x27"

/-! ### A model of `json.loads` (RFC 8259 grammar plus Python's
`NaN`/`Infinity` extensions), as a fuelled recursive-descent parser. -/

/-- The four JSON whitespace characters (space, TAB, LF, CR, by code point)
skipped between tokens. -/
def jsonWs (c : Char) : Bool :=
  [32, 9, 10, 13].contains c.toNat

/-- Drop leading JSON whitespace. -/
def skipWs : List Char → List Char
  | [] => []
  | c :: rest => if jsonWs c then skipWs rest else c :: rest

/-- Hexadecimal digit value (by code point), for `\uXXXX` escapes. -/
def hexVal? (c : Char) : Option Nat :=
  let n := c.toNat
  if 48 ≤ n && n < 58 then some (n - 48)
  else if 97 ≤ n && n < 103 then some (n - 87)
  else if 65 ≤ n && n < 71 then some (n - 55)
  else none

/-- Four hex digits of a `\uXXXX` escape. -/
def parseHex4 : List Char → Option (Nat × List Char)
  | a :: b :: c :: d :: rest =>
    match hexVal? a, hexVal? b, hexVal? c, hexVal? d with
    | some x, some y, some z, some w => some (((x * 16 + y) * 16 + z) * 16 + w, rest)
    | _, _, _, _ => none
  | _ => none

/-- The opening brace character. -/
def lbrace : Char := Char.ofNat 123

/-- The closing brace character. -/
def rbrace : Char := Char.ofNat 125

/-- String body after the opening quote, with the JSON escapes; raw control
characters are rejected as in Python's strict mode. -/
def parseStringBody (fuel : Nat) (cs : List Char) (acc : List Char) :
    Option (String × List Char) :=
  match fuel with
  | 0 => none
  | fuel + 1 =>
    match cs with
    | [] => none
    | c :: rest =>
      if c = '"' then some (String.mk acc.reverse, rest)
      else if c = '\\' then
        match rest with
        | [] => none
        | e :: rest2 =>
          if e = '"' then parseStringBody fuel rest2 ('"' :: acc)
          else if e = '\\' then parseStringBody fuel rest2 ('\\' :: acc)
          else if e = '/' then parseStringBody fuel rest2 ('/' :: acc)
          else if e = 'b' then parseStringBody fuel rest2 ('\x08' :: acc)
          else if e = 'f' then parseStringBody fuel rest2 ('\x0c' :: acc)
          else if e = 'n' then parseStringBody fuel rest2 ('\n' :: acc)
          else if e = 'r' then parseStringBody fuel rest2 ('\r' :: acc)
          else if e = 't' then parseStringBody fuel rest2 ('\t' :: acc)
          else if e = 'u' then
            match parseHex4 rest2 with
            | some (n, rest3) => parseStringBody fuel rest3 (Char.ofNat n :: acc)
            | none => none
          else none
      else if c.toNat < 32 then none
      else parseStringBody fuel rest (c :: acc)

/-- Digits of a decimal run, with the rest of the input. -/
def takeDigits (cs : List Char) : List Char × List Char :=
  (cs.takeWhile Char.isDigit, cs.dropWhile Char.isDigit)

/-- Numeric value of a digit run (accumulator recursion). -/
def digitsToNatAux (acc : Nat) : List Char → Nat
  | [] => acc
  | d :: ds => digitsToNatAux (10 * acc + (d.toNat - 48)) ds

/-- Numeric value of a digit run. -/
def digitsToNat (ds : List Char) : Nat :=
  digitsToNatAux 0 ds

/-- The digits of a JSON number after its optional sign: grammar
`(0 | [1-9][0-9]*) frac? exp?`.  An integer lexeme becomes an `int`; one
with a fraction or exponent stays a `float` lexeme. -/
def parseNumberCore (neg : Bool) (cs1 : List Char) : Option (Json × List Char) :=
  match cs1 with
  | [] => none
  | c :: _ =>
    if !c.isDigit then none
    else
      let (intDigits, rest1) :=
        if c = '0' then ([c], cs1.drop 1) else takeDigits cs1
      let (fracDigits, rest2) :=
        match rest1 with
        | '.' :: r =>
          let (ds, r2) := takeDigits r
          (ds, r2)
        | _ => ([], rest1)
      let fracOk :=
        match rest1 with
        | '.' :: _ => !fracDigits.isEmpty
        | _ => true
      let (expChars, rest3) :=
        match rest2 with
        | e :: r =>
          if e = 'e' || e = 'E' then
            match r with
            | s :: r2 =>
              if s = '+' || s = '-' then
                let (ds, r3) := takeDigits r2
                (e :: s :: ds, r3)
              else
                let (ds, r3) := takeDigits r
                (e :: ds, r3)
            | [] => ([e], [])
          else ([], rest2)
        | [] => ([], rest2)
      let expOk :=
        match expChars with
        | [] => true
        | _ => (expChars.dropWhile (fun d => !d.isDigit)).length > 0 &&
               (expChars.reverse.head?.map Char.isDigit).getD false
      if !fracOk || !expOk then none
      else if fracDigits.isEmpty && expChars.isEmpty then
        let v : Int := Int.ofNat (digitsToNat intDigits)
        some (.num (if neg then -v else v), rest3)
      else
        let lexeme := (if neg then ['-'] else []) ++ intDigits ++
          (if fracDigits.isEmpty then [] else '.' :: fracDigits) ++ expChars
        some (.numRaw (String.mk lexeme), rest3)

/-- A JSON number starting at `cs`: an optional minus sign, then
`parseNumberCore`. -/
def parseNumber : List Char → Option (Json × List Char)
  | '-' :: r => parseNumberCore true r
  | cs => parseNumberCore false cs

/-- Does `lit` begin `cs`?  Returns the remainder. -/
def stripLit (lit : List Char) (cs : List Char) : Option (List Char) :=
  match lit, cs with
  | [], rest => some rest
  | l :: ls, c :: rest => if c = l then stripLit ls rest else none
  | _ :: _, [] => none

mutual

/-- One JSON value starting at `cs` (leading whitespace already skipped);
models the value grammar accepted by `json.loads`, including the `NaN`,
`Infinity` and `-Infinity` extensions Python accepts by default. -/
def parseValue (fuel : Nat) (cs : List Char) : Option (Json × List Char) :=
  match fuel with
  | 0 => none
  | fuel + 1 =>
    match stripLit ['n', 'u', 'l', 'l'] cs with
    | some rest => some (.null, rest)
    | none =>
    match stripLit ['t', 'r', 'u', 'e'] cs with
    | some rest => some (.bool true, rest)
    | none =>
    match stripLit ['f', 'a', 'l', 's', 'e'] cs with
    | some rest => some (.bool false, rest)
    | none =>
    match stripLit ['N', 'a', 'N'] cs with
    | some rest => some (.numRaw "nan", rest)
    | none =>
    match stripLit ['I', 'n', 'f', 'i', 'n', 'i', 't', 'y'] cs with
    | some rest => some (.numRaw "inf", rest)
    | none =>
    match stripLit ['-', 'I', 'n', 'f', 'i', 'n', 'i', 't', 'y'] cs with
    | some rest => some (.numRaw "-inf", rest)
    | none =>
    match cs with
    | [] => none
    | c :: rest =>
      if c = '"' then
        match parseStringBody fuel rest [] with
        | some (s, rest2) => some (.str s, rest2)
        | none => none
      else if c = lbrace then
        match skipWs rest with
        | [] => none
        | c2 :: rest2 =>
          if c2 = rbrace then some (.obj [], rest2)
          else parseMembers fuel (c2 :: rest2) []
      else if c = '[' then
        match skipWs rest with
        | [] => none
        | c2 :: rest2 =>
          if c2 = ']' then some (.arr [], rest2)
          else parseElems fuel (c2 :: rest2) []
      else parseNumber cs

/-- Object members from the first key on; `acc` holds the members read so
far, combined with dict-update semantics. -/
def parseMembers (fuel : Nat) (cs : List Char) (acc : List (String × Json)) :
    Option (Json × List Char) :=
  match fuel with
  | 0 => none
  | fuel + 1 =>
    match cs with
    | [] => none
    | c :: rest =>
      if c ≠ '"' then none
      else
        match parseStringBody fuel rest [] with
        | none => none
        | some (k, cs1) =>
          match skipWs cs1 with
          | ':' :: cs2 =>
            match parseValue fuel (skipWs cs2) with
            | none => none
            | some (v, cs3) =>
              let acc2 := upsert acc k v
              match skipWs cs3 with
              | ',' :: cs4 => parseMembers fuel (skipWs cs4) acc2
              | c2 :: cs4 => if c2 = rbrace then some (.obj acc2, cs4) else none
              | [] => none
          | _ => none

/-- Array elements from the first element on. -/
def parseElems (fuel : Nat) (cs : List Char) (acc : List Json) :
    Option (Json × List Char) :=
  match fuel with
  | 0 => none
  | fuel + 1 =>
    match parseValue fuel cs with
    | none => none
    | some (v, cs1) =>
      match skipWs cs1 with
      | ',' :: cs2 => parseElems fuel (skipWs cs2) (acc ++ [v])
      | c2 :: cs2 => if c2 = ']' then some (.arr (acc ++ [v]), cs2) else none
      | [] => none

end

/-- Model of `json.loads`: one JSON document with optional surrounding
whitespace; `none` models a raised `json.JSONDecodeError`. -/
def jsonParse (s : String) : Option Json :=
  match parseValue (2 * s.length + 4) (skipWs s.data) with
  | some (v, rest) => if (skipWs rest).isEmpty then some v else none
  | none => none

/-! ### The bridge in `step_bridge.py` -/

/-- What one `aiohttp` POST to the remote endpoint yields: an HTTP status
with the response body text (assumed `application/json` content type), or an
`aiohttp.ClientError` whose `str(e)` is `msg`. -/
inductive HttpOutcome where
  | http (status : Nat) (bodyText : String) : HttpOutcome
  | netError (msg : String) : HttpOutcome

/-- The deterministic external world of one bridge process: the remote
endpoint as a function of the outbound JSON-RPC payload, and the
`str(json.JSONDecodeError)` message Python produces for a given undecodable
document (only its existence matters to the claims). -/
structure Env where
  remote : Json → HttpOutcome
  decodeMsg : String → String

/-- The success-response dict literal of `handle_request` (step_bridge.py
lines 221-225): keys `jsonrpc`, `result`, `id` in insertion order. -/
def mkSuccess (result idv : Json) : Json :=
  .obj [("jsonrpc", .str "2.0"), ("result", result), ("id", idv)]

/-- The error-response dict literal used at step_bridge.py lines 134-142,
147-155, 211-219, 228-236 and 258-266: keys `jsonrpc`, `error` (with `code`,
`message`, `data`), `id` in insertion order. -/
def mkError (code : Int) (message : String) (data idv : Json) : Json :=
  .obj [("jsonrpc", .str "2.0"),
        ("error", .obj [("code", .num code), ("message", .str message), ("data", data)]),
        ("id", idv)]

/-- The `TOOLS` table of step_bridge.py lines 34-90 (static tool metadata
advertised by `tools/list`). -/
def TOOLS : Json :=
  .arr [
    .obj [("name", .str "add_steps"),
          ("description", .str "Record daily step count for fitness tracking. Use this when user wants to log their steps for a specific date. CRITICAL SAFETY: Never automatically overwrite existing data. If data exists, show user the conflict and ask for explicit confirmation before using allow_overwrite=true. Authentication via Authorization header."),
          ("inputSchema", .obj [
            ("type", .str "object"),
            ("properties", .obj [
              ("date", .obj [("type", .str "string"),
                             ("pattern", .str "^\\d\x7b4\x7d-\\d\x7b2\x7d-\\d\x7b2\x7d$"),
                             ("description", .str "Target date for step count in YYYY-MM-DD format ONLY. Examples: \"2025-07-30\", \"2025-12-25\". NEVER use \"today\" - always convert to actual date like \"2025-07-30\".")]),
              ("count", .obj [("type", .str "number"),
                              ("minimum", .num 0),
                              ("maximum", .num 70000),
                              ("description", .str "Number of steps taken (0-70,000). Typical daily counts: sedentary 2000-5000, active 7500-10000, very active 10000+")]),
              ("allow_overwrite", .obj [("type", .str "boolean"),
                                        ("default", .bool false),
                                        ("description", .str "DANGER: Only set to true after explicit user confirmation. NEVER set this automatically. User must explicitly agree to overwrite their existing data.")])]),
            ("required", .arr [.str "date", .str "count"])])],
    .obj [("name", .str "get_steps"),
          ("description", .str "Retrieve step history and progress data. Use this to show user their step counts, analyze trends, check goal progress, or generate reports. Authentication via Authorization header."),
          ("inputSchema", .obj [
            ("type", .str "object"),
            ("properties", .obj [
              ("start_date", .obj [("type", .str "string"),
                                   ("pattern", .str "^\\d\x7b4\x7d-\\d\x7b2\x7d-\\d\x7b2\x7d$"),
                                   ("description", .str "Optional: Start date for date range filter in YYYY-MM-DD format. Omit to get all history.")]),
              ("end_date", .obj [("type", .str "string"),
                                 ("pattern", .str "^\\d\x7b4\x7d-\\d\x7b2\x7d-\\d\x7b2\x7d$"),
                                 ("description", .str "Optional: End date for date range filter in YYYY-MM-DD format. Omit to get all history.")])]),
            ("required", .arr [])])],
    .obj [("name", .str "get_user_profile"),
          ("description", .str "Get comprehensive user information including profile details, active challenges, team information, and account status. Use this first to understand user context. Authentication via Authorization header."),
          ("inputSchema", .obj [
            ("type", .str "object"),
            ("properties", .obj []),
            ("required", .arr [])])]]

/-- `make_api_request` (step_bridge.py lines 115-155): builds the outbound
JSON-RPC payload, posts it, and returns the awaited value together with the
payload it sent (for counting outbound calls).  `.ok` is a normal return
(including the locally built -32000 error dicts); `.error` is the uncaught
`json.JSONDecodeError` from `response.json()` on an undecodable 200 body. -/
def make_api_request (env : Env) (method : String) (params : Json) :
    Except String Json × Json :=
  let payload : Json :=
    .obj [("jsonrpc", .str "2.0"), ("method", .str method),
          ("params", if pyTruthy params then params else .obj []), ("id", .num 1)]
  match env.remote payload with
  | .netError msg =>
    (.ok (mkError (-32000) "Server error" (.str ("Network error: " ++ msg)) (.num 1)), payload)
  | .http status body =>
    if status ≠ 200 then
      (.ok (mkError (-32000) "Server error"
        (.str ("HTTP " ++ toString status ++ ": " ++ body)) (.num 1)), payload)
    else
      match jsonParse body with
      | some j => (.ok j, payload)
      | none => (.error (env.decodeMsg body), payload)

/-- `handle_initialize` (step_bridge.py lines 157-168): a static record,
ignoring `params`. -/
def handle_initialize (_params : Json) : Json :=
  .obj [("protocolVersion", .str "2025-03-26"),
        ("capabilities", .obj [("tools", .obj [])]),
        ("serverInfo", .obj [("name", .str "Step Challenge MCP Bridge"),
                             ("version", .str "1.0.0")])]

/-- `handle_tools_list` (step_bridge.py lines 170-174). -/
def handle_tools_list (_params : Json) : Json :=
  .obj [("tools", TOOLS)]

/-- `handle_tools_call` (step_bridge.py lines 176-195).  `.error msg` is a
raised exception with `str(e) = msg` (the explicit `ValueError`, the
re-raised remote error, or an `AttributeError`/`TypeError`/`KeyError` from
operating on an unexpected shape).  The second component lists the payloads
posted to the remote endpoint. -/
def handle_tools_call (env : Env) (params : Json) : Except String Json × List Json :=
  match params with
  | .obj pf =>
    let tool_name := (jlookup pf "name").getD .null
    let tool_args := (jlookup pf "arguments").getD (.obj [])
    if !pyTruthy tool_name then (.error "Tool name is required", [])
    else
      match make_api_request env "tools/call"
        (.obj [("name", tool_name), ("arguments", tool_args)]) with
      | (.error e, p) => (.error e, [p])
      | (.ok api_response, p) =>
        match pyContains api_response "error" with
        | .error e => (.error e, [p])
        | .ok true =>
          match pySubscript api_response "error" with
          | .error e => (.error e, [p])
          | .ok ev =>
            match pySubscript ev "data" with
            | .error e => (.error e, [p])
            | .ok dv => (.error (pyStr dv), [p])
        | .ok false =>
          match api_response with
          | .obj rf => (.ok ((jlookup rf "result").getD (.obj [])), [p])
          | other => (.error (noGetAttrMsg other), [p])
  | other => (.error (noGetAttrMsg other), [])

/-- `handle_request` (step_bridge.py lines 197-236).  The three `.get` calls
on `request` happen before the `try` block, so a non-dict request raises an
uncaught `AttributeError` (`.error`); everything inside the `try` is
converted to a response dict (`.ok`).  The second component lists outbound
remote calls. -/
def handle_request (env : Env) (request : Json) : Except String Json × List Json :=
  match request with
  | .obj fields =>
    let method := (jlookup fields "method").getD .null
    let params := (jlookup fields "params").getD (.obj [])
    let request_id := (jlookup fields "id").getD .null
    if pyEqStr method "initialize" then
      (.ok (mkSuccess ( handle_initialize params) request_id), [])
    else if pyEqStr method "tools/list" then
      (.ok (mkSuccess (handle_tools_list params) request_id), [])
    else if pyEqStr method "tools/call" then
      match handle_tools_call env params with
      | (.ok result, tr) => (.ok (mkSuccess result request_id), tr)
      | (.error e, tr) =>
        (.ok (mkError (-32000) "Server error" (.str e) request_id), tr)
    else
      (.ok (mkError (-32601) "Method not found"
        (.str ("Unknown method: " ++ pyStr method)) request_id), [])
  | other => (.error (noGetAttrMsg other), [])

/-- The set of whitespace characters removed by Python's `str.strip()`
(ASCII portion: space, TAB, LF, CR, VT, FF, the FS..US separators, NEL and
NBSP). -/
def pyIsSpace (c : Char) : Bool :=
  [32, 9, 10, 13, 11, 12, 28, 29, 30, 31, 133, 160].contains c.toNat

/-- Python `str.strip()`: drop leading and trailing whitespace. -/
def pyStrip (s : String) : String :=
  String.mk (((s.data.dropWhile pyIsSpace).reverse.dropWhile pyIsSpace).reverse)

/-- What one iteration of the `run` loop (step_bridge.py lines 241-274) does
with one input line: nothing for a blank line, exactly one printed response
for a decodable or undecodable line, or an uncaught exception that kills the
process. -/
inductive LineOutput where
  | silent : LineOutput
  | output (response : Json) : LineOutput
  | crash (message : String) : LineOutput

/-- One iteration of the `run` loop on one input line (the line as returned
by `readline`, shown here without its trailing newline, which `strip()`
removes anyway). -/
def processLine (env : Env) (rawLine : String) : LineOutput :=
  let line := pyStrip rawLine
  if line = "" then .silent
  else
    match jsonParse line with
    | none => .output (mkError (-32700) "Parse error" (.str (env.decodeMsg line)) .null)
    | some request =>
      match (handle_request env request).1 with
      | .ok response => .output response
      | .error msg => .crash msg

/-- The full `run` loop (step_bridge.py lines 238-277) over the list of
input lines up to end-of-file: the emitted response lines (as JSON values)
and, if an uncaught exception escaped `handle_request`, its `str(e)` (the
process then dies without reading further lines). -/
def runLines (env : Env) : List String → List Json × Option String
  | [] => ([], none)
  | l :: rest =>
    match processLine env l with
    | .silent => runLines env rest
    | .output r => (r :: (runLines env rest).1, (runLines env rest).2)
    | .crash m => ([], some m)

/-! ### Process startup (`__main__` blocks) -/

/-- Whether a startup path reaches the stdio request loop or exits first. -/
inductive Startup where
  | exited (code : Nat) : Startup
  | enteredLoop : Startup
deriving DecidableEq

/-- The stdout lines printed by step_bridge.py's help branch (lines 292-301). -/
def helpLines : List String :=
  ["Step Challenge MCP Bridge",
   "Usage: STEP_TOKEN=your_token python step_bridge.py",
   "",
   "Environment Variables:",
   "  STEP_TOKEN    Your Step Challenge MCP token (required)",
   "",
   "Example:",
   "  STEP_TOKEN=mcp_abc123... python step_bridge.py",
   "",
   "Get your token from: https://step-app-4x-yhw.fly.dev/mcp-setup"]

/-- `len(sys.argv) > 1 and sys.argv[1] in ['-h', '--help', 'help']`
(step_bridge.py line 291). -/
def isHelpArg (argv : List String) : Bool :=
  match argv.drop 1 with
  | a :: _ => a == "-h" || a == "--help" || a == "help"
  | [] => false

/-- The `__main__` block of step_bridge.py (lines 284-321) up to entering the
`run` loop: result and the lines printed to stdout (the response stream;
error messages go to stderr and are not listed).  `stepToken` is the value
of the `STEP_TOKEN` environment variable. -/
def step_bridge_main (pyVersionAtLeast37 : Bool) (argv : List String)
    (stepToken : Option String) : Startup × List String :=
  if !pyVersionAtLeast37 then (.exited 1, [])
  else if isHelpArg argv then (.exited 0, helpLines)
  else
    match stepToken with
    | none => (.exited 1, [])
    | some _ => (.enteredLoop, [])

/-- Startup of mcp_server_anthropic.py with `STEP_CHALLENGE_TOKEN` as given:
the module-level client initialisation (lines 94-102) runs first, then the
`__main__` block (lines 369-374) prints its banner and enters the MCP server
loop.  All four prints go to stdout.  No path exits the process. -/
def mcp_server_anthropic_main (stepChallengeToken : Option String) :
    Startup × List String :=
  match stepChallengeToken with
  | none =>
    (.enteredLoop,
     ["Warning: STEP_CHALLENGE_TOKEN environment variable not set",
      "Starting Step Challenge MCP Server...",
      "Warning: STEP_CHALLENGE_TOKEN environment variable not set",
      "Set it to your MCP token from get_mcp_token.py"])
  | some _ => (.enteredLoop, ["Starting Step Challenge MCP Server..."])

/-! ### Derived notions used by the claims -/

/-- The set of methods `handle_request` dispatches to a handler. -/
def recognizedMethod (m : Json) : Bool :=
  pyEqStr m "initialize" || pyEqStr m "tools/list" || pyEqStr m "tools/call"

/-- A response dict carries exactly one of the keys `result` and `error`. -/
def exclusiveResultError (rf : List (String × Json)) : Prop :=
  ((jlookup rf "result").isSome = true ∧ jlookup rf "error" = none) ∨
  (jlookup rf "result" = none ∧ (jlookup rf "error").isSome = true)

/-- The f-string detail `make_api_request` builds for each failed outcome. -/
def upstreamDetail : HttpOutcome → String
  | .http status body => "HTTP " ++ toString status ++ ": " ++ body
  | .netError msg => "Network error: " ++ msg

/-- A deterministic environment whose remote always fails with a network
error; used to evaluate the claims at concrete inputs. -/
def env0 : Env := ⟨fun _ => .netError "connection refused", fun _ => "Expecting value"⟩

/-- A deterministic environment whose remote always answers HTTP 500. -/
def env500 : Env := ⟨fun _ => .http 500 "Internal Server Error", fun _ => "Expecting value"⟩

/-! ### Helper lemmas -/

/-- Inside the `try` of `handle_request`, every dict request produces a
normal return: a response dict whose `id` is the request's `id` (defaulting
to `None`) and which carries exactly one of `result`/`error`. -/
theorem handle_request_obj_ok (env : Env) (fields : List (String × Json)) :
    ∃ rf, (handle_request env (Json.obj fields)).1 = .ok (.obj rf) ∧
      jlookup rf "id" = some ((jlookup fields "id").getD .null) ∧
      exclusiveResultError rf := by
  simp only [handle_request]
  split
  · exact ⟨_, rfl, rfl, .inl ⟨rfl, rfl⟩⟩
  · split
    · exact ⟨_, rfl, rfl, .inl ⟨rfl, rfl⟩⟩
    · split
      · split
        · exact ⟨_, rfl, rfl, .inl ⟨rfl, rfl⟩⟩
        · exact ⟨_, rfl, rfl, .inr ⟨rfl, rfl⟩⟩
      · exact ⟨_, rfl, rfl, .inr ⟨rfl, rfl⟩⟩

/-- When the input line decodes, the loop iteration is entirely determined
by `handle_request`. -/
theorem processLine_eq_of_parse (env : Env) (line : String) (req : Json)
    (h : jsonParse (pyStrip line) = some req) :
    processLine env line =
      (match (handle_request env req).1 with
       | .ok response => .output response
       | .error msg => .crash msg) := by
  have hne : pyStrip line ≠ "" := by
    intro he
    rw [he] at h
    exact Option.noConfusion h
  unfold processLine
  rw [if_neg hne, h]

/-- A list is a prefix of itself, in `Bool` form. -/
theorem isPrefixOf_self (l : List Char) : l.isPrefixOf l = true := by
  induction l with
  | nil => rfl
  | cons a t ih => simp [List.isPrefixOf, ih]

/-- Appending the needle to any prefix makes `strContains` succeed. -/
theorem strContains_append_self (pre m : String) :
    strContains (pre ++ m) m = true := by
  unfold strContains
  rw [String.data_append]
  induction pre.data with
  | nil =>
    cases hm : m.data with
    | nil => simp [hm]
    | cons a t =>
      simp only [List.nil_append, hm, List.tails_cons, List.any_cons]
      rw [← hm, isPrefixOf_self]
      simp
  | cons a t ih =>
    rw [List.cons_append, List.tails_cons, List.any_cons, ih, Bool.or_true]

/-- Every `.output` of a loop iteration is a dict with exactly one of
`result`/`error`. -/
theorem processLine_output_exclusive (env : Env) (l : String) (resp : Json)
    (h : processLine env l = .output resp) :
    ∃ rf, resp = .obj rf ∧ exclusiveResultError rf := by
  simp only [processLine] at h
  split at h
  · exact absurd h (by simp)
  · split at h
    · cases h
      exact ⟨_, rfl, .inr ⟨rfl, rfl⟩⟩
    · rename_i req hreq
      split at h
      · rename_i response hresp
        cases h
        cases req with
        | obj fields =>
          obtain ⟨rf, hok, -, hex⟩ := handle_request_obj_ok env fields
          rw [hresp] at hok
          cases hok
          exact ⟨rf, rfl, hex⟩
        | null => exact absurd hresp (by simp [handle_request])
        | bool b => exact absurd hresp (by simp [handle_request])
        | num n => exact absurd hresp (by simp [handle_request])
        | numRaw s => exact absurd hresp (by simp [handle_request])
        | str s => exact absurd hresp (by simp [handle_request])
        | arr xs => exact absurd hresp (by simp [handle_request])
      · exact absurd h (by simp)

/-! ### Claims -/

/-- C1 counterexample: the input line `5` is valid JSON but not an object;
`request.get("method")` then raises an uncaught `AttributeError` (it sits
before the `try` block of `handle_request`), no error response is emitted,
and the process dies without reading the next line — contradicting the
claim that handling any parsed input value yields an error response and the
loop continues. -/
theorem C1_counterexample :
    jsonParse (pyStrip "5") = some (Json.num 5) ∧
    processLine env0 "5" =
      .crash "\x27int\x27 object has no attribute \x27get\x27" ∧
    runLines env0 ["5", "\x7b\"method\":\"initialize\",\"id\":1\x7d"] =
      ([], some "\x27int\x27 object has no attribute \x27get\x27") :=
  ⟨rfl, rfl, rfl⟩

/-- C1 (amended): for every request line whose JSON value is an object, every
failure during handling is converted into a JSON-RPC response (success or
error object) emitted as a single output line, and the loop continues with
the remaining input; a valid-JSON non-object line instead raises an uncaught
`AttributeError` that terminates the process. -/
theorem C1_object_requests_never_crash (env : Env) (line : String)
    (rest : List String) (fields : List (String × Json))
    (hp : jsonParse (pyStrip line) = some (Json.obj fields)) :
    ∃ r, processLine env line = .output r ∧
      runLines env (line :: rest) =
        (r :: (runLines env rest).1, (runLines env rest).2) := by
  obtain ⟨rf, hok, -, -⟩ := handle_request_obj_ok env fields
  refine ⟨.obj rf, ?_, ?_⟩
  · rw [processLine_eq_of_parse env line _ hp, hok]
  · simp only [runLines]
    rw [processLine_eq_of_parse env line _ hp, hok]

/-- Witness for C1 (amended) at a concrete object request line. -/
theorem C1_witness : ∃ r,
    processLine env0 "\x7b\"method\":\"tools/list\",\"id\":4\x7d" = .output r ∧
    runLines env0 ["\x7b\"method\":\"tools/list\",\"id\":4\x7d"] =
      (r :: (runLines env0 []).1, (runLines env0 []).2) :=
  C1_object_requests_never_crash env0 _ []
    [("method", Json.str "tools/list"), ("id", Json.num 4)] rfl

/-- C2 counterexample: started with `STEP_CHALLENGE_TOKEN` unset,
mcp_server_anthropic.py does not terminate — it prints warnings on stdout
(the response stream) and enters the server loop — contradicting the claim
for that bridge script. -/
theorem C2_counterexample :
    (mcp_server_anthropic_main none).1 = Startup.enteredLoop ∧
    (mcp_server_anthropic_main none).2 ≠ [] :=
  ⟨rfl, fun h => List.noConfusion h⟩

/-- C2 (amended): step_bridge.py, started without a help argument and with
`STEP_TOKEN` unset, exits with code 1 before the request loop and writes
nothing to stdout; mcp_server_anthropic.py with `STEP_CHALLENGE_TOKEN`
unset instead warns and continues into its server loop. -/
theorem C2_token_startup (argv : List String) (h : isHelpArg argv = false) :
    step_bridge_main true argv none = (Startup.exited 1, []) ∧
    (mcp_server_anthropic_main none).1 = Startup.enteredLoop := by
  refine ⟨?_, rfl⟩
  simp [step_bridge_main, h]

/-- Witness for C2 (amended) at the plain invocation `python step_bridge.py`. -/
theorem C2_witness :
    step_bridge_main true ["step_bridge.py"] none = (Startup.exited 1, []) ∧
    (mcp_server_anthropic_main none).1 = Startup.enteredLoop :=
  C2_token_startup ["step_bridge.py"] rfl

/-- The `tools/call` request of claim C3, for `get_user_profile` with empty
arguments, carrying an arbitrary request id. -/
def c3Request (idv : Json) : Json :=
  .obj [("jsonrpc", .str "2.0"), ("method", .str "tools/call"),
        ("params", .obj [("name", .str "get_user_profile"),
                         ("arguments", .obj [])]),
        ("id", idv)]

/-- C3: with the remote endpoint answering HTTP 200 with body
`{"result": {"ok": true}}`, a `tools/call` request for `get_user_profile`
with empty arguments produces exactly the response
`{"jsonrpc":"2.0","result":{"ok":true},"id":<the request's id>}`: the remote
`result` field is returned verbatim under the incoming id. -/
theorem C3_result_verbatim (dmsg : String → String) (idv : Json) :
    (handle_request
        ⟨fun _ => .http 200 "\x7b\"result\": \x7b\"ok\": true\x7d\x7d", dmsg⟩
        (c3Request idv)).1 =
      .ok (.obj [("jsonrpc", .str "2.0"),
                 ("result", .obj [("ok", .bool true)]),
                 ("id", idv)]) := rfl

/-- C5 counterexample: the line `" "` is non-empty and is not valid JSON,
yet the bridge emits no ParseError (and no response at all) for it — the
line is stripped to emptiness and skipped before `json.loads` runs. -/
theorem C5_counterexample :
    " " ≠ "" ∧ jsonParse " " = none ∧ processLine env0 " " = .silent ∧
    runLines env0 [" "] = ([], none) :=
  ⟨by decide, rfl, rfl, rfl⟩

/-- C5 (amended): for every input line that is non-empty after whitespace
stripping and whose stripped content is not valid JSON, the bridge emits a
ParseError response with code -32700 and id null, and the loop continues
with the remaining input lines.  (A line of pure whitespace is skipped
silently instead.) -/
theorem C5_parse_error_line (env : Env) (line : String) (rest : List String)
    (h1 : pyStrip line ≠ "") (h2 : jsonParse (pyStrip line) = none) :
    processLine env line =
      .output (mkError (-32700) "Parse error"
        (.str (env.decodeMsg (pyStrip line))) .null) ∧
    runLines env (line :: rest) =
      (mkError (-32700) "Parse error" (.str (env.decodeMsg (pyStrip line))) .null
         :: (runLines env rest).1,
       (runLines env rest).2) := by
  have hp : processLine env line =
      .output (mkError (-32700) "Parse error"
        (.str (env.decodeMsg (pyStrip line))) .null) := by
    simp only [processLine]
    rw [if_neg h1, h2]
  refine ⟨hp, ?_⟩
  simp only [runLines]
  rw [hp]

/-- Witness for C5 (amended) at the undecodable line `x`. -/
theorem C5_witness :
    processLine env0 "x" =
      .output (mkError (-32700) "Parse error"
        (.str (env0.decodeMsg (pyStrip "x"))) .null) ∧
    runLines env0 ["x"] =
      (mkError (-32700) "Parse error" (.str (env0.decodeMsg (pyStrip "x"))) .null
         :: (runLines env0 []).1,
       (runLines env0 []).2) :=
  C5_parse_error_line env0 "x" [] (by decide) rfl

/-- C10: an input line that is empty or consists only of whitespace yields
no response line at all, and the loop silently proceeds with the remaining
input. -/
theorem C10_blank_line_silent (env : Env) (line : String) (rest : List String)
    (h : line.data.all pyIsSpace = true) :
    processLine env line = .silent ∧
    runLines env (line :: rest) = runLines env rest := by
  have hs : pyStrip line = "" := by
    unfold pyStrip
    have hd : line.data.dropWhile pyIsSpace = [] :=
      List.dropWhile_eq_nil_iff.mpr (List.all_eq_true.mp h)
    rw [hd]
    rfl
  have hp : processLine env line = .silent := by
    simp only [processLine]
    rw [if_pos hs]
  refine ⟨hp, ?_⟩
  simp only [runLines]
  rw [hp]

/-- Witness for C10 at a tab-and-space line followed by a real request. -/
theorem C10_witness :
    processLine env0 "\t " = .silent ∧
    runLines env0 ["\t ", "\x7b\x7d"] = runLines env0 ["\x7b\x7d"] :=
  C10_blank_line_silent env0 "\t " ["\x7b\x7d"] (by decide)

/-- C4: every request line decoding to an object whose method is recognized
(`initialize`, `tools/list`, `tools/call`) produces exactly one response
line, whose `id` equals the request's `id` (also when the handler produced
an error response), and the loop continues. -/
theorem C4_single_response_matching_id (env : Env) (line : String)
    (rest : List String) (fields : List (String × Json))
    (hp : jsonParse (pyStrip line) = some (Json.obj fields))
    (_hm : recognizedMethod ((jlookup fields "method").getD .null) = true) :
    ∃ rf, processLine env line = .output (.obj rf) ∧
      jlookup rf "id" = some ((jlookup fields "id").getD .null) ∧
      runLines env (line :: rest) =
        ((.obj rf) :: (runLines env rest).1, (runLines env rest).2) := by
  obtain ⟨rf, hok, hid, -⟩ := handle_request_obj_ok env fields
  refine ⟨rf, ?_, hid, ?_⟩
  · rw [processLine_eq_of_parse env line _ hp, hok]
  · simp only [runLines]
    rw [processLine_eq_of_parse env line _ hp, hok]

/-- Witness for C4 at a concrete `initialize` request line. -/
theorem C4_witness : ∃ rf,
    processLine env0 "\x7b\"method\":\"initialize\",\"id\":3\x7d" =
      .output (.obj rf) ∧
    jlookup rf "id" =
      some ((jlookup [("method", Json.str "initialize"), ("id", Json.num 3)]
        "id").getD .null) ∧
    runLines env0 ["\x7b\"method\":\"initialize\",\"id\":3\x7d"] =
      ((.obj rf) :: (runLines env0 []).1, (runLines env0 []).2) :=
  C4_single_response_matching_id env0 _ []
    [("method", Json.str "initialize"), ("id", Json.num 3)] rfl rfl

/-- C6: a dict request whose method is a string outside the recognized set
gets a MethodNotFound response: code -32601, the request's id, and a `data`
field referencing the requested method name. -/
theorem C6_method_not_found (env : Env) (fields : List (String × Json))
    (m : String)
    (hm : jlookup fields "method" = some (.str m))
    (hr : recognizedMethod (.str m) = false) :
    (handle_request env (.obj fields)).1 =
      .ok (mkError (-32601) "Method not found"
        (.str ("Unknown method: " ++ m)) ((jlookup fields "id").getD .null)) ∧
    strContains ("Unknown method: " ++ m) m = true := by
  unfold recognizedMethod at hr
  rw [Bool.or_eq_false_iff, Bool.or_eq_false_iff] at hr
  obtain ⟨⟨h1, h2⟩, h3⟩ := hr
  refine ⟨?_, strContains_append_self "Unknown method: " m⟩
  simp only [handle_request, hm, Option.getD_some, h1, h2, h3,
    Bool.false_eq_true, if_false, pyStr]

/-- Witness for C6 at the unrecognized method `foo`. -/
theorem C6_witness :
    (handle_request env0
        (.obj [("method", Json.str "foo"), ("id", Json.num 9)])).1 =
      .ok (mkError (-32601) "Method not found"
        (.str ("Unknown method: " ++ "foo"))
        ((jlookup [("method", Json.str "foo"), ("id", Json.num 9)]
          "id").getD .null)) ∧
    strContains ("Unknown method: " ++ "foo") "foo" = true :=
  C6_method_not_found env0 _ "foo" rfl rfl

/-- C7: a `tools/call` request with a truthy tool name, against a remote
that answers with a non-2xx status or raises a network error, yields a
ServerError response — code -32000, `data` carrying the upstream detail,
the request's id — without crashing, and exactly one outbound remote call
is made (no retry). -/
theorem C7_server_error_no_retry (dmsg : String → String) (oc : HttpOutcome)
    (fields pf : List (String × Json))
    (hmethod : jlookup fields "method" = some (.str "tools/call"))
    (hparams : jlookup fields "params" = some (.obj pf))
    (hname : pyTruthy ((jlookup pf "name").getD .null) = true)
    (hfail : match oc with
             | .http status _ => status < 200 ∨ 300 ≤ status
             | .netError _ => True) :
    (handle_request ⟨fun _ => oc, dmsg⟩ (.obj fields)).1 =
      .ok (mkError (-32000) "Server error" (.str (upstreamDetail oc))
        ((jlookup fields "id").getD .null)) ∧
    (handle_request ⟨fun _ => oc, dmsg⟩ (.obj fields)).2.length = 1 := by
  have htc : handle_tools_call ⟨fun _ => oc, dmsg⟩ (.obj pf) =
      (.error (upstreamDetail oc),
       [Json.obj [("jsonrpc", .str "2.0"), ("method", .str "tools/call"),
                  ("params", .obj [("name", (jlookup pf "name").getD .null),
                                   ("arguments",
                                    (jlookup pf "arguments").getD (.obj []))]),
                  ("id", .num 1)]]) := by
    cases oc with
    | http status body =>
      have hne : status ≠ 200 := by
        rcases hfail with h | h <;> omega
      simp only [handle_tools_call, hname, Bool.not_true, Bool.false_eq_true,
        if_false, make_api_request]
      rw [if_pos hne]
      rfl
    | netError msg =>
      simp only [handle_tools_call, hname, Bool.not_true, Bool.false_eq_true,
        if_false, make_api_request]
      rfl
  have e1 : pyEqStr (Json.str "tools/call") "initialize" = false := rfl
  have e2 : pyEqStr (Json.str "tools/call") "tools/list" = false := rfl
  have e3 : pyEqStr (Json.str "tools/call") "tools/call" = true := rfl
  constructor
  · simp only [handle_request, hmethod, hparams, Option.getD_some, e1, e2, e3,
      Bool.false_eq_true, if_false, if_true, htc]
  · simp only [handle_request, hmethod, hparams, Option.getD_some, e1, e2, e3,
      Bool.false_eq_true, if_false, if_true, htc]
    rfl

/-- The request fields of the C7 witness. -/
def c7Fields : List (String × Json) :=
  [("method", .str "tools/call"),
   ("params", .obj [("name", .str "get_user_profile"), ("arguments", .obj [])]),
   ("id", .num 2)]

/-- Witness for C7: remote answering HTTP 500. -/
theorem C7_witness :
    (handle_request ⟨fun _ => .http 500 "Internal Server Error",
        fun _ => "Expecting value"⟩ (.obj c7Fields)).1 =
      .ok (mkError (-32000) "Server error"
        (.str (upstreamDetail (.http 500 "Internal Server Error")))
        ((jlookup c7Fields "id").getD .null)) ∧
    (handle_request ⟨fun _ => .http 500 "Internal Server Error",
        fun _ => "Expecting value"⟩ (.obj c7Fields)).2.length = 1 :=
  C7_server_error_no_retry (fun _ => "Expecting value")
    (.http 500 "Internal Server Error") c7Fields
    [("name", .str "get_user_profile"), ("arguments", .obj [])]
    rfl rfl rfl (Or.inr (by omega))

/-- C8: every response object the loop emits carries exactly one of the
keys `result` and `error` — never both, never neither. -/
theorem C8_exactly_one_result_or_error (env : Env) (lines : List String) :
    ∀ r ∈ (runLines env lines).1,
      ∃ rf, r = .obj rf ∧ exclusiveResultError rf := by
  induction lines with
  | nil =>
    intro r hr
    simp [runLines] at hr
  | cons l rest ih =>
    intro r hr
    simp only [runLines] at hr
    cases hpl : processLine env l with
    | silent =>
      rw [hpl] at hr
      exact ih r hr
    | output resp =>
      rw [hpl] at hr
      rcases List.mem_cons.mp hr with h | h
      · rw [h]
        exact processLine_output_exclusive env l resp hpl
      · exact ih r h
    | crash m =>
      rw [hpl] at hr
      exact absurd hr (List.not_mem_nil r)

/-- Witness for C8 at the ParseError response emitted for the line `x`. -/
theorem C8_witness :
    ∃ rf, mkError (-32700) "Parse error" (.str (env0.decodeMsg "x")) .null =
        Json.obj rf ∧ exclusiveResultError rf :=
  C8_exactly_one_result_or_error env0 ["x"]
    (mkError (-32700) "Parse error" (.str (env0.decodeMsg "x")) .null)
    (List.Mem.head _)

/-- C9: processing the identical request line twice, with the remote a
deterministic function of the outbound payload, yields two structurally
identical response lines: the bridge keeps no state across requests that
can change a response. -/
theorem C9_idempotent_identical_lines (env : Env) (line : String)
    (rest : List String) (fields : List (String × Json))
    (hp : jsonParse (pyStrip line) = some (Json.obj fields)) :
    ∃ r, processLine env line = .output r ∧
      (runLines env (line :: line :: rest)).1 =
        r :: r :: (runLines env rest).1 := by
  obtain ⟨rf, hok, -, -⟩ := handle_request_obj_ok env fields
  have hpr : processLine env line = .output (.obj rf) := by
    rw [processLine_eq_of_parse env line _ hp, hok]
  refine ⟨.obj rf, hpr, ?_⟩
  simp only [runLines]
  rw [hpr]

/-- Witness for C9: the same request line processed twice in a row. -/
theorem C9_witness : ∃ r,
    processLine env0 "\x7b\"id\":1\x7d" = .output r ∧
    (runLines env0 ["\x7b\"id\":1\x7d", "\x7b\"id\":1\x7d"]).1 =
      r :: r :: (runLines env0 []).1 :=
  C9_idempotent_identical_lines env0 _ [] [("id", Json.num 1)] rfl

end StepApp
